import Mathlib

/-!
Shallow embedding of the architecture-governance pipeline
(`ArchitectureGovernanceA2A/ArchGov.py` and
`ArchitectureGovernance/architecture_governance.py`) and proofs of the
frozen specification claims about it.
-/

set_option maxRecDepth 4000

/-! ## Data model and CMDB catalog (ArchGov.py, lines 35-59) -/

def DeploymentEnv.PROD : String := "prod"

def DeploymentEnv.UAT : String := "uat"

def DeploymentEnv.SANDBOX : String := "sandbox"

def DeploymentEnv.QA : String := "qa"

def Compliance.PCI : String := "PCI"

def Compliance.GDPR : String := "GDPR"

def Compliance.SOC2 : String := "SOC2"

/-- One record of the mock CMDB catalog (the dict shape used in `cmdb_data`). -/
structure AppRecord where
  id : Nat
  name : String
  owner : String
  technology : String
  deployment : String
  compliance : List String
  users : Nat
deriving DecidableEq, Repr

/-- The pydantic output model `ComplianceResult` (ArchGov.py lines 47-51):
`applicationId`, `appName`, `isCompliant`, optional `reason`. -/
structure ComplianceResult where
  applicationId : Nat
  appName : String
  isCompliant : Bool
  reason : Option String := none
deriving DecidableEq, Repr

/-- The five example catalog records, `cmdb_data` (ArchGov.py lines 53-59). -/
def cmdb_data : List AppRecord :=
  [ { id := 1, name := "Customer Payments Gateway", owner := "Finance Team",
      technology := "Java/Spring", deployment := DeploymentEnv.PROD,
      compliance := [Compliance.PCI, Compliance.SOC2], users := 150000 },
    { id := 2, name := "User Data Analytics", owner := "Marketing Team",
      technology := "Python/Flask", deployment := DeploymentEnv.UAT,
      compliance := [Compliance.GDPR], users := 25000 },
    { id := 3, name := "PCI Feature Dev", owner := "Payments Dev Team",
      technology := "Java/Spring", deployment := DeploymentEnv.SANDBOX,
      compliance := [Compliance.PCI], users := 15 },
    { id := 4, name := "Internal HR Portal", owner := "HR Team",
      technology := "Node.js/React", deployment := DeploymentEnv.PROD,
      compliance := [Compliance.SOC2], users := 800 },
    { id := 5, name := "SOC2 Staging Env", owner := "Core Platform",
      technology := "Go", deployment := DeploymentEnv.SANDBOX,
      compliance := [Compliance.SOC2], users := 50 } ]

/-! ## Models of the Python string primitives used by the source -/

/-- The ASCII whitespace characters recognised by Python `str.strip()`. -/
def pyWhitespaceChar (c : Char) : Bool :=
  c = ' ' || c = '\t' || c = '\n' || c = '\r' || c = Char.ofNat 11 || c = Char.ofNat 12

/-- Model of Python `str.strip()` (ASCII whitespace). -/
def pyStrip (s : String) : String :=
  String.mk (((s.data.dropWhile pyWhitespaceChar).reverse.dropWhile pyWhitespaceChar).reverse)

/-- ASCII lowercasing of one character, as Python `str.lower()` does on the
ASCII names appearing in this program. -/
def pyLowerChar (c : Char) : Char :=
  if 65 ≤ c.toNat ∧ c.toNat ≤ 90 then Char.ofNat (c.toNat + 32) else c

/-- Model of Python `str.lower()` (ASCII range). -/
def pyLower (s : String) : String := String.mk (s.data.map pyLowerChar)

/-- Model of Python `str.startswith(pre)`. -/
def pyStartsWith (s pre : String) : Bool := pre.data.isPrefixOf s.data

/-! ## Catalog lookup tool (ArchGov.py, `get_cmdb_data`, lines 63-81) -/

/-- Outcome of `get_cmdb_data`: the source serializes each branch to a string
with `json.dumps` (an external library); the embedding keeps the three branch
payloads as structured data. -/
inductive CmdbResult
  | allApps (apps : List AppRecord)
  | oneApp (app : AppRecord)
  | notFound (message : String)
deriving DecidableEq, Repr

/-- The not-found diagnostic string built at ArchGov.py lines 80-81:
`Sorry, I don't have information for '<name>'. Available applications: <names>`. -/
def notFoundMessage (applicationName : String) : String :=
  "Sorry, I don\x27t have information for \x27" ++ applicationName ++
    "\x27. Available applications: " ++
    String.intercalate ", " (cmdb_data.map (fun app => app.name))

/-- `get_cmdb_data` (ArchGov.py lines 63-81): lowercase and strip the query;
sentinels return the whole catalog; otherwise linear search on lowercased
record names; a miss returns the diagnostic listing all names. -/
def get_cmdb_data (applicationName : String) : CmdbResult :=
  let applicationName_lower := pyStrip (pyLower applicationName)
  if applicationName_lower ∈ ["all", "list", "everything", ""] then
    CmdbResult.allApps cmdb_data
  else
    match cmdb_data.find? (fun app => pyLower app.name == applicationName_lower) with
    | some app => CmdbResult.oneApp app
    | none => CmdbResult.notFound (notFoundMessage applicationName)

/-! ## Stage-1 compliance classification

The three compliance rules are stated in `compliance_agent`'s instruction
(ArchGov.py lines 102-119) and are executed by the external reasoning
service, not by repository code; they are modelled here from the spec. -/

/-- Modelled from the spec: rule 1 of the compliance instruction — subject to
PCI compliance but deployed in a sandbox or qa environment. -/
def violatesPCI (app : AppRecord) : Bool :=
  app.compliance.contains Compliance.PCI &&
    (app.deployment == DeploymentEnv.SANDBOX || app.deployment == DeploymentEnv.QA)

/-- Modelled from the spec: rule 2 — subject to GDPR compliance with more than
10,000 users in a uat environment. -/
def violatesGDPR (app : AppRecord) : Bool :=
  app.compliance.contains Compliance.GDPR &&
    decide (app.users > 10000) && app.deployment == DeploymentEnv.UAT

/-- Modelled from the spec: rule 3 — subject to SOC2 compliance but deployed in
a sandbox environment. -/
def violatesSOC2 (app : AppRecord) : Bool :=
  app.compliance.contains Compliance.SOC2 && app.deployment == DeploymentEnv.SANDBOX

/-- Modelled from the spec: the classification the external reasoning service
is instructed to perform by `compliance_agent` (ArchGov.py lines 102-119): the
first violated rule makes the application non-compliant with a reason naming
that rule; otherwise compliant with a null reason. -/
def classify (app : AppRecord) : ComplianceResult :=
  if violatesPCI app then
    { applicationId := app.id, appName := app.name, isCompliant := false,
      reason := some ("Subject to \x27PCI\x27 compliance but deployed in a \x27" ++
        app.deployment ++ "\x27 environment") }
  else if violatesGDPR app then
    { applicationId := app.id, appName := app.name, isCompliant := false,
      reason := some ("Subject to \x27GDPR\x27 compliance but has more than 10,000 users in a \x27" ++
        app.deployment ++ "\x27 environment") }
  else if violatesSOC2 app then
    { applicationId := app.id, appName := app.name, isCompliant := false,
      reason := some ("Subject to \x27SOC2\x27 compliance but deployed in a \x27" ++
        app.deployment ++ "\x27 environment") }
  else
    { applicationId := app.id, appName := app.name, isCompliant := true, reason := none }

/-- Substring occurrence on character lists. -/
def occursList (needle : List Char) : List Char → Bool
  | [] => needle.isEmpty
  | c :: t => needle.isPrefixOf (c :: t) || occursList needle t

/-- `occursB needle hay` is true when `needle` occurs contiguously in `hay`. -/
def occursB (needle hay : String) : Bool :=
  occursList needle.data hay.data

/-- A finding cites a rule when the rule name occurs in its reason string. -/
def citesRule (r : ComplianceResult) (rule : String) : Bool :=
  match r.reason with
  | some s => occursB rule s
  | none => false

/-- The stage-1 findings over the example catalog. -/
def exampleFindings : List ComplianceResult := cmdb_data.map classify

/-! ## JSON values and a model of `json.loads`

`extract_json_from_events` (ArchGov.py lines 210-227) calls the external
`json` standard library. `jsonLoads` models `json.loads` on the JSON
fragment this program exchanges: numbers are integers (no floats or
exponents) and `\u` escapes are not modelled; where `json.loads` raises,
`jsonLoads` returns `none`. -/

inductive Json
  | null
  | bool (b : Bool)
  | num (n : Int)
  | str (s : String)
  | arr (elements : List Json)
  | obj (members : List (String × Json))

/-- JSON insignificant whitespace (space, tab, newline, carriage return). -/
def skipJsonWs : List Char → List Char
  | c :: rest =>
    if c = ' ' || c = '\t' || c = '\n' || c = '\r' then skipJsonWs rest else c :: rest
  | [] => []

/-- Decode one backslash escape of a JSON string. -/
def jsonEscapeChar (c : Char) : Option Char :=
  if c = '"' then some '"'
  else if c = '\\' then some '\\'
  else if c = '/' then some '/'
  else if c = 'n' then some '\n'
  else if c = 't' then some '\t'
  else if c = 'r' then some '\r'
  else if c = 'b' then some (Char.ofNat 8)
  else if c = 'f' then some (Char.ofNat 12)
  else none

/-- Parse the body of a JSON string after the opening quote. -/
def parseJsonString : Nat → List Char → Option (List Char × List Char)
  | 0, _ => none
  | fuel + 1, cs =>
    match cs with
    | [] => none
    | '"' :: rest => some ([], rest)
    | '\\' :: cs2 =>
      match cs2 with
      | [] => none
      | e :: rest =>
        match jsonEscapeChar e with
        | none => none
        | some d =>
          match parseJsonString fuel rest with
          | none => none
          | some (s, r) => some (d :: s, r)
    | c :: rest =>
      if c.toNat < 32 then none
      else
        match parseJsonString fuel rest with
        | none => none
        | some (s, r) => some (c :: s, r)

/-- Accumulate a digit run into a natural number. -/
def digitsToNat (ds : List Char) : Nat :=
  ds.foldl (fun n c => n * 10 + (c.toNat - 48)) 0

/-- Parse a JSON digit run (no leading zeros, no fraction or exponent). -/
def parseJsonDigits (cs : List Char) : Option (Nat × List Char) :=
  match cs.takeWhile Char.isDigit, cs.dropWhile Char.isDigit with
  | [], _ => none
  | '0' :: _ :: _, _ => none
  | ds, rest =>
    match rest with
    | c :: _ =>
      if c = '.' || c = 'e' || c = 'E' then none else some (digitsToNat ds, rest)
    | [] => some (digitsToNat ds, rest)

/-- Parse a JSON integer, with optional leading minus sign. -/
def parseJsonNumber : List Char → Option (Int × List Char)
  | '-' :: rest =>
    match parseJsonDigits rest with
    | some (n, r) => some (-(n : Int), r)
    | none => none
  | cs =>
    match parseJsonDigits cs with
    | some (n, r) => some ((n : Int), r)
    | none => none

mutual

def parseJsonValue : Nat → List Char → Option (Json × List Char)
  | 0, _ => none
  | fuel + 1, cs =>
    match skipJsonWs cs with
    | 'n' :: 'u' :: 'l' :: 'l' :: rest => some (Json.null, rest)
    | 't' :: 'r' :: 'u' :: 'e' :: rest => some (Json.bool true, rest)
    | 'f' :: 'a' :: 'l' :: 's' :: 'e' :: rest => some (Json.bool false, rest)
    | '"' :: rest =>
      match parseJsonString fuel rest with
      | some (s, r) => some (Json.str (String.mk s), r)
      | none => none
    | '[' :: rest =>
      match skipJsonWs rest with
      | ']' :: r => some (Json.arr [], r)
      | cs2 =>
        match parseJsonValue fuel cs2 with
        | some (v, r) => parseJsonArrayRest fuel [v] r
        | none => none
    | '{' :: rest =>
      match skipJsonWs rest with
      | '}' :: r => some (Json.obj [], r)
      | cs2 => parseJsonMembers fuel [] cs2
    | cs2 =>
      match parseJsonNumber cs2 with
      | some (n, r) => some (Json.num n, r)
      | none => none

def parseJsonArrayRest : Nat → List Json → List Char → Option (Json × List Char)
  | 0, _, _ => none
  | fuel + 1, acc, cs =>
    match skipJsonWs cs with
    | ']' :: r => some (Json.arr acc, r)
    | ',' :: r =>
      match parseJsonValue fuel r with
      | some (v, r2) => parseJsonArrayRest fuel (acc ++ [v]) r2
      | none => none
    | _ => none

def parseJsonMembers : Nat → List (String × Json) → List Char → Option (Json × List Char)
  | 0, _, _ => none
  | fuel + 1, acc, cs =>
    match skipJsonWs cs with
    | '"' :: rest =>
      match parseJsonString fuel rest with
      | none => none
      | some (k, r) =>
        match skipJsonWs r with
        | ':' :: r2 =>
          match parseJsonValue fuel r2 with
          | none => none
          | some (v, r3) =>
            match skipJsonWs r3 with
            | ',' :: r4 => parseJsonMembers fuel (acc ++ [(String.mk k, v)]) r4
            | '}' :: r4 => some (Json.obj (acc ++ [(String.mk k, v)]), r4)
            | _ => none
        | _ => none
    | _ => none

end

/-- Model of `json.loads`: parse one JSON value and require only whitespace
after it; `none` models a raised `JSONDecodeError`. -/
def jsonLoads (s : String) : Option Json :=
  match parseJsonValue (2 * s.data.length + 2) s.data with
  | some (v, rest) => if (skipJsonWs rest).isEmpty then some v else none
  | none => none

/-! ## Events and `extract_json_from_events` (ArchGov.py lines 210-227) -/

/-- A content part; `text = none` models a part without a `text` attribute. -/
structure TextPart where
  text : Option String
deriving DecidableEq, Repr

/-- An event content; `parts = none` models a missing `parts` attribute. -/
structure EventContent where
  parts : Option (List TextPart)
deriving DecidableEq, Repr

/-- One runner event; `content = none` models a missing `content` attribute. -/
structure Event where
  content : Option EventContent
deriving DecidableEq, Repr

/-- What `extract_json_from_events` returns and prints: the parsed result,
and the raw text echoed in the `except` branch when `json.loads` raises. -/
structure ExtractOutcome where
  result : Option Json
  errorRaw : Option String

/-- The inner `for part in event.content.parts` loop: the first part whose
stripped text starts with `[` decides the whole call (the parse result, or
`None` with the raw text printed); parts without text or without a leading
bracket are skipped. -/
def scanParts : List TextPart → Option ExtractOutcome
  | [] => none
  | p :: rest =>
    match p.text with
    | some t =>
      if pyStartsWith (pyStrip t) "[" then
        match jsonLoads t with
        | some v => some { result := some v, errorRaw := none }
        | none => some { result := none, errorRaw := some t }
      else scanParts rest
    | none => scanParts rest

/-- The outer `for event in reversed(events)` loop; events lacking content
or parts are skipped. -/
def scanEvents : List Event → Option ExtractOutcome
  | [] => none
  | e :: rest =>
    match e.content with
    | some c =>
      match c.parts with
      | some ps =>
        match scanParts ps with
        | some out => some out
        | none => scanEvents rest
      | none => scanEvents rest
    | none => scanEvents rest

/-- `extract_json_from_events` (ArchGov.py lines 210-227), applied to a list
of events; the source wraps a single non-list event into a singleton list
before this same scan. -/
def extract_json_from_events (events : List Event) : ExtractOutcome :=
  match scanEvents events.reverse with
  | some out => out
  | none => { result := none, errorRaw := none }

/-- A single event holding one text part. -/
def singleTextEvent (t : String) : Event :=
  { content := some { parts := some [{ text := some t }] } }

/-- A part whose stripped text starts with a JSON array bracket. -/
def partIsCandidate (p : TextPart) : Bool :=
  match p.text with
  | some t => pyStartsWith (pyStrip t) "["
  | none => false

/-- An event holding some candidate part. -/
def eventHasCandidate (e : Event) : Bool :=
  match e.content with
  | some c =>
    match c.parts with
    | some ps => ps.any partIsCandidate
    | none => false
  | none => false

/-! ## Agents and the sequential pipeline (ArchGov.py lines 86-208) -/

/-- The fields of an `LlmAgent` construction that the claims depend on; the
runtime behaviour of `LlmAgent` itself lives in the external ADK library. -/
structure LlmAgentModel where
  model : String
  name : String
  description : String
  instruction : String
  tools : List String
deriving DecidableEq, Repr

/-- A `SequentialAgent` construction: a name and an ordered sub-agent list. -/
structure SequentialAgentModel where
  name : String
  sub_agents : List LlmAgentModel
deriving DecidableEq, Repr

/-- The CMDB lookup agent (ArchGov.py lines 86-95); defined but not part of the pipeline. -/
def cmdb_agent : LlmAgentModel :=
  { model := "gemini-2.5-flash-lite",
    name := "cmdb_agent",
    description := "Helpful agent for looking up application details.",
    instruction :=
      "\n" ++
      "    You are a CMDB agent. Use get_cmdb_data to answer questions about applications.\n" ++
      "    If the user asks for everything, fetch all data.\n" ++
      "    ",
    tools := ["get_cmdb_data"] }

/-- The compliance validator agent (ArchGov.py lines 98-121). -/
def compliance_agent : LlmAgentModel :=
  { model := "gemini-2.5-flash-lite",
    name := "compliance_validator",
    description := "Analyzes applications for security compliance violations.",
    instruction :=
      "\n" ++
      "    You are a Compliance Validator Agent.\n" ++
      "    \n" ++
      "    Your goal is to:\n" ++
      "    1. Fetch the list of applications using the get_cmdb_data tool (ask for \x27all\x27).\n" ++
      "    2. Analyze each application against the following Rules:\n" ++
      "    \n" ++
      "       - NON-COMPLIANT if: Subject to \x27PCI\x27 compliance but deployed in a \x27sandbox\x27 or \x27qa\x27 environment.\n" ++
      "       - NON-COMPLIANT if: Subject to \x27GDPR\x27 compliance but has more than 10,000 users in a \x27uat\x27 environment.\n" ++
      "       - NON-COMPLIANT if: Subject to \x27SOC2\x27 compliance but deployed in a \x27sandbox\x27 environment.\n" ++
      "    \n" ++
      "    3. Return a JSON array of objects. Do not wrap in markdown blocks. Just the raw JSON.\n" ++
      "       Each object must have:\n" ++
      "       - \x27applicationId\x27: (number, mapped from \x27id\x27)\n" ++
      "       - \x27appName\x27: (string, mapped from \x27name\x27)\n" ++
      "       - \x27isCompliant\x27: (boolean)\n" ++
      "       - \x27reason\x27: (string if non-compliant, explain specifically which rule failed. null if compliant)\n" ++
      "    ",
    tools := ["get_cmdb_data"] }

/-- The risk assessment agent (ArchGov.py lines 123-136). -/
def riskassessment_agent : LlmAgentModel :=
  { model := "gemini-2.5-flash-lite",
    name := "riskassessment",
    description := "Analyzes applications for security compliance violations.",
    instruction :=
      "\"\"\n" ++
      "        As a Risk Assessment Agent, analyze the following non-compliant applications.\n" ++
      "        For each application, identify a primary business or security risk associated with its non-compliance and assign a severity level (\x27Low\x27, \x27Medium\x27, \x27High\x27, \x27Critical\x27).\n" ++
      "\n" ++
      "        Non-compliant applications:\n" ++
      "        $\x7bJSON.stringify(nonCompliantApps, null, 2)\x7d\n" ++
      "\n" ++
      "        Return a JSON array of objects. Each object should contain \x27applicationId\x27, \x27appName\x27, \x27risk\x27 description, and \x27severity\x27.\n" ++
      "    ",
    tools := [] }

/-- The recommendation agent (ArchGov.py lines 138-154). -/
def recommendation_agent : LlmAgentModel :=
  { model := "gemini-2.5-flash-lite",
    name := "recommendation",
    description := "Analyzes applications and provide recommendations for security compliance violations.",
    instruction :=
      "\"\"\n" ++
      "        As a Recommendation Agent, your task is to create a well-defined, actionable recommendation for each identified risk. \n" ++
      "        Each recommendation must be a specific, single-step action item that can be assigned to a team to mitigate the risk. \n" ++
      "        Start each recommendation with an action verb (e.g., \"Migrate\", \"Remove\", \"Update\", \"Disable\"). \n" ++
      "        For example, instead of \"Improve security\", a good recommendation would be \"Migrate the \x27PCI Feature Dev\x27 application from the non-compliant \x27sandbox\x27 to a secure, PCI-certified development environment.\"\n" ++
      "        Also, assign a priority for implementing the recommendation (\x27Low\x27, \x27Medium\x27, \x27High\x27).\n" ++
      "\n" ++
      "        Identified risks:\n" ++
      "        $\x7bJSON.stringify(risks, null, 2)\x7d\n" ++
      "\n" ++
      "        Return a JSON array of objects. Each object should contain the original \x27risk\x27, a \x27recommendation\x27, and a \x27priority\x27.    \n" ++
      "    ",
    tools := [] }

/-- The reporting agent (ArchGov.py lines 156-172). -/
def reporting_agent : LlmAgentModel :=
  { model := "gemini-2.5-flash-lite",
    name := "reporting",
    description := "Provides reporting for security compliance violations.",
    instruction :=
      "\"\"\n" ++
      "        As a Reporting Agent, create a concise daily compliance report based on the following data.\n" ++
      "        The report should contain a brief \x27summary\x27 of the overall compliance status and a list of key \x27actionItems\x27. \n" ++
      "        Action items should be created for all recommendations with a \x27High\x27 and \x27Medium\x27 priority. \n" ++
      "        Additionally, ensure an action item is created for any risk related to SOC2 or PCI compliance in non-production environments, as these are critical regulatory concerns.\n" ++
      "\n" ++
      "        Compliance check results: $\x7bJSON.stringify(complianceResults.filter(r => !r.isCompliant))\x7d\n" ++
      "        Identified risks: $\x7bJSON.stringify(risks)\x7d\n" ++
      "        Mitigation recommendations: $\x7bJSON.stringify(recommendations)\x7d\n" ++
      "\n" ++
      "        Return a single JSON object with \x27summary\x27 (string) and \x27actionItems\x27 (array of strings).\n" ++
      "    ",
    tools := [] }

/-- The evaluation agent (ArchGov.py lines 174-192). -/
def evaluation_agent : LlmAgentModel :=
  { model := "gemini-2.5-flash-lite",
    name := "evaluation",
    description := "Evaluates the effectiveness of recommendations for security compliance violations.",
    instruction :=
      "\"\"\n" ++
      "        As an Evaluation Agent, assess the quality and completeness of the generated compliance report based on the workflow\x27s output.\n" ++
      "        - Did the report correctly summarize the situation?\n" ++
      "        - Did the report identify the most critical action items based on the identified risks?\n" ++
      "        - Were all high-priority risks addressed in the action items?\n" ++
      "\n" ++
      "        Based on your assessment, provide a quantitative \x27score\x27 from 1 to 100 and brief \x27feedback\x27 explaining your reasoning.\n" ++
      "        \n" ++
      "        Workflow Output to Evaluate:\n" ++
      "        Report: $\x7bJSON.stringify(report)\x7d\n" ++
      "        Risks: $\x7bJSON.stringify(risks)\x7d\n" ++
      "\n" ++
      "        Return a single JSON object with \x27score\x27 (number) and \x27feedback\x27 (string).\n" ++
      "    ",
    tools := [] }
/-- `root_agent` (ArchGov.py lines 201-204): the sequential pipeline over the
five stage agents, in source order. -/
def root_agent : SequentialAgentModel :=
  { name := "ArchGovernancePipeline",
    sub_agents := [compliance_agent, riskassessment_agent, recommendation_agent,
      reporting_agent, evaluation_agent] }

/-! ## Pipeline stages -/

/-- The six pipeline stages named by the specification. -/
inductive Stage
  | lookup
  | validate
  | riskAssess
  | recommend
  | report
  | evaluate
deriving DecidableEq, Repr

/-- Position of a stage in the specified order. -/
def Stage.index : Stage → Nat
  | Stage.lookup => 0
  | Stage.validate => 1
  | Stage.riskAssess => 2
  | Stage.recommend => 3
  | Stage.report => 4
  | Stage.evaluate => 5

/-- Modelled from the spec: the pipeline stage each sub-agent of `root_agent`
performs, keyed by the agent names in the source. -/
def stageOfAgentName (n : String) : Option Stage :=
  if n = "compliance_validator" then some Stage.validate
  else if n = "riskassessment" then some Stage.riskAssess
  else if n = "recommendation" then some Stage.recommend
  else if n = "reporting" then some Stage.report
  else if n = "evaluation" then some Stage.evaluate
  else none

/-- Modelled from the spec: the ADK `SequentialAgent` (external library) runs
its sub-agents exactly once each, in list order; the compliance sub-agent
first performs the catalog lookup through its `get_cmdb_data` tool before
producing its artifact, which is the pipeline lookup stage. -/
def subAgentStages (a : LlmAgentModel) : List Stage :=
  (if a.tools.contains "get_cmdb_data" then [Stage.lookup] else []) ++
    (stageOfAgentName a.name).toList

/-- The stage trace of one full pipeline run of `root_agent`. -/
def pipelineTrace : List Stage :=
  (root_agent.sub_agents.map subAgentStages).flatten

/-! ## Retry policy (ArchGov.py lines 26-31)

`retry_config` is the only retry code in the repository; the loop consuming
it lives in the external HTTP client, modelled below from the spec. -/

/-- The fields of `types.HttpRetryOptions` used by `retry_config`. -/
structure HttpRetryOptions where
  attempts : Nat
  exp_base : Nat
  initial_delay : Nat
  http_status_codes : List Nat
deriving DecidableEq, Repr

/-- `retry_config` (ArchGov.py lines 26-31). -/
def retry_config : HttpRetryOptions :=
  { attempts := 5, exp_base := 7, initial_delay := 1,
    http_status_codes := [429, 500, 503, 504] }

/-- Outcome of one attempt against the external service. -/
inductive CallResult
  | ok (text : String)
  | err (status : Nat)
deriving DecidableEq, Repr

/-- Final outcome of a retried call: success, exhaustion of the attempt
budget on transient errors (carrying the last status), or an immediate
failure on a non-retryable status. -/
inductive AdapterResult
  | success (text : String)
  | serviceUnavailable (lastStatus : Nat)
  | fatal (status : Nat)
deriving DecidableEq, Repr

/-- A retried call's observable trace: attempts made, backoff delays slept
between attempts, and the final outcome. -/
structure RetryTrace where
  attemptsMade : Nat
  delays : List Nat
  result : AdapterResult
deriving DecidableEq, Repr

/-- Modelled from the spec: the retry loop of the external client configured
by `retry_config` — up to `attempts` attempts; a status in
`http_status_codes` is transient and retried after a backoff delay of
`initial_delay * exp_base ^ (attempt - 1)`; any other status fails
immediately; an exhausted budget escalates to `serviceUnavailable` carrying
the last status. `respond i` is the outcome of the i-th attempt. -/
def retryLoop (cfg : HttpRetryOptions) (respond : Nat → CallResult) :
    Nat → Nat → RetryTrace
  | _, 0 =>
    { attemptsMade := 0, delays := [], result := AdapterResult.serviceUnavailable 0 }
  | attempt, remaining + 1 =>
    match respond attempt with
    | CallResult.ok t =>
      { attemptsMade := 1, delays := [], result := AdapterResult.success t }
    | CallResult.err s =>
      if s ∈ cfg.http_status_codes then
        if remaining = 0 then
          { attemptsMade := 1, delays := [], result := AdapterResult.serviceUnavailable s }
        else
          let rest := retryLoop cfg respond (attempt + 1) remaining
          { attemptsMade := rest.attemptsMade + 1,
            delays := cfg.initial_delay * cfg.exp_base ^ (attempt - 1) :: rest.delays,
            result := rest.result }
      else
        { attemptsMade := 1, delays := [], result := AdapterResult.fatal s }

/-- Run a call under the retry policy, starting at attempt 1 with the full
configured budget. -/
def runWithRetries (cfg : HttpRetryOptions) (respond : Nat → CallResult) : RetryTrace :=
  retryLoop cfg respond 1 cfg.attempts

/-! ## The main entry point (ArchGov.py lines 230-238) -/

/-- What one `main` run produces and reports. -/
structure MainResult where
  stagesExecuted : List Stage
  printedResult : Option Json
  printedRawText : Option String
  reportedFailedStage : Option String

/-- Modelled from the spec: `main` awaits `runner.run_debug`, which executes
every pipeline stage inside the external ADK runner before returning its
events; only afterwards does `extract_json_from_events` run, and the only
failure diagnostics are the parse-error and raw-text prints inside the
extractor — no stage name is reported anywhere. -/
def mainRun (events : List Event) : MainResult :=
  let out := extract_json_from_events events
  { stagesExecuted := pipelineTrace,
    printedResult := out.result,
    printedRawText := out.errorRaw,
    reportedFailedStage := none }

/-! ## The CrewAI variant's main block
(architecture_governance.py lines 1-202) -/

/-- One assignment of the main block: bind `target` after evaluating an
expression that references the names `refs`. -/
structure PyAssign where
  target : String
  refs : List String
deriving DecidableEq, Repr

/-- The names bound at module level of architecture_governance.py before the
main block runs: the imports of lines 1-11 and the two tool definitions.
`Process` is not among them. -/
def crewai_module_names : List String :=
  ["os", "Agent", "Task", "Crew", "ChatOpenAI", "tool", "json", "go", "pd",
   "io", "ollama", "asyncio", "Any", "Dict", "List",
   "get_cmdb_data", "get_policy_doc"]

/-- The assignments of the main block (lines 47-202) in source order, each
with the names its right-hand side references; `result` is the
`crew.kickoff()` call that runs the tasks. -/
def crewai_main_stmts : List PyAssign :=
  [ { target := "ollama_model", refs := [] },
    { target := "llm_langchain", refs := ["ChatOpenAI", "os", "ollama_model"] },
    { target := "data_aggregator_agent",
      refs := ["Agent", "get_cmdb_data", "llm_langchain"] },
    { target := "compliance_validator_agent",
      refs := ["Agent", "get_policy_doc", "llm_langchain"] },
    { target := "risk_assessor_agent", refs := ["Agent", "llm_langchain"] },
    { target := "recommendation_agent", refs := ["Agent", "llm_langchain"] },
    { target := "report_agent", refs := ["Agent", "llm_langchain"] },
    { target := "data_aggregation_task", refs := ["Task", "data_aggregator_agent"] },
    { target := "compliance_task", refs := ["Task", "compliance_validator_agent"] },
    { target := "risk_assessment_task", refs := ["Task", "risk_assessor_agent"] },
    { target := "remediation_recommendation_task",
      refs := ["Task", "recommendation_agent"] },
    { target := "report_generation_task", refs := ["Task", "report_agent"] },
    { target := "crew",
      refs := ["Crew", "data_aggregator_agent", "compliance_validator_agent",
        "risk_assessor_agent", "recommendation_agent", "report_agent",
        "data_aggregation_task", "compliance_task", "risk_assessment_task",
        "remediation_recommendation_task", "report_generation_task", "Process"] },
    { target := "result", refs := ["crew"] } ]

/-- Modelled from Python name-resolution semantics: execute the assignments
in order; the first statement referencing a name neither bound at module
level nor previously assigned raises `NameError` there, and no later
statement executes. Returns the failing statement's target together with the
unbound name, or `none` when every statement runs. -/
def runMainBlock (env : List String) : List PyAssign → Option (String × String)
  | [] => none
  | st :: rest =>
    match st.refs.find? (fun r => !env.contains r) with
    | some missing => some (st.target, missing)
    | none => runMainBlock (env ++ [st.target]) rest

/-! ## Helper lemmas -/

theorem string_data_append (a b : String) : (a ++ b).data = a.data ++ b.data := by
  cases a
  cases b
  rfl

theorem occursList_append_right (needle t h : List Char)
    (ht : occursList needle t = true) : occursList needle (h ++ t) = true := by
  induction h with
  | nil => simpa using ht
  | cons c rest ih => simp [occursList, ih]

/-- Unfolding equation for `get_cmdb_data`. -/
theorem get_cmdb_data_eq (s : String) :
    get_cmdb_data s =
      if pyStrip (pyLower s) ∈ ["all", "list", "everything", ""] then
        CmdbResult.allApps cmdb_data
      else
        match cmdb_data.find? (fun app => pyLower app.name == pyStrip (pyLower s)) with
        | some app => CmdbResult.oneApp app
        | none => CmdbResult.notFound (notFoundMessage s) := rfl

/-! ## Claim theorems: catalog and stage-1 classification -/

/-- C1: over the five example catalog records, the stage-1 classification
yields exactly three non-compliant findings, for application ids 2, 3 and 5,
and exactly two compliant findings, for ids 1 and 4; each non-compliant
finding's reason cites exactly the rule (GDPR, PCI, SOC2 respectively) that
the application violated. -/
theorem c1_example_catalog_findings :
    ((exampleFindings.filter (fun r => !r.isCompliant)).map
        (fun r => r.applicationId) = [2, 3, 5])
  ∧ ((exampleFindings.filter (fun r => r.isCompliant)).map
        (fun r => r.applicationId) = [1, 4])
  ∧ ((exampleFindings.filter (fun r => !r.isCompliant)).map
        (fun r => (r.applicationId, citesRule r Compliance.GDPR,
          citesRule r Compliance.PCI, citesRule r Compliance.SOC2)))
      = [(2, true, false, false), (3, false, true, false), (5, false, false, true)] := by
  decide

/-- The compliance status of a classification, as a function of the three
rules. -/
theorem classify_isCompliant (app : AppRecord) :
    (classify app).isCompliant = !(violatesPCI app || violatesGDPR app || violatesSOC2 app) := by
  unfold classify
  by_cases h1 : violatesPCI app = true
  · simp [h1]
  · by_cases h2 : violatesGDPR app = true
    · simp [h1, h2]
    · by_cases h3 : violatesSOC2 app = true
      · simp [h1, h2, h3]
      · simp [h1, h2, h3]

/-- A classification carries a reason exactly when it is non-compliant. -/
theorem classify_reason_isSome (app : AppRecord) :
    (classify app).reason.isSome = !(classify app).isCompliant := by
  unfold classify
  by_cases h1 : violatesPCI app = true
  · simp [h1]
  · by_cases h2 : violatesGDPR app = true
    · simp [h1, h2]
    · by_cases h3 : violatesSOC2 app = true
      · simp [h1, h2, h3]
      · simp [h1, h2, h3]

theorem violatesPCI_iff (app : AppRecord) :
    violatesPCI app = true ↔
      (app.compliance.contains Compliance.PCI = true ∧
        (app.deployment = DeploymentEnv.SANDBOX ∨ app.deployment = DeploymentEnv.QA)) := by
  simp [violatesPCI]

theorem violatesGDPR_iff (app : AppRecord) :
    violatesGDPR app = true ↔
      (app.compliance.contains Compliance.GDPR = true ∧ app.users > 10000 ∧
        app.deployment = DeploymentEnv.UAT) := by
  simp [violatesGDPR, and_assoc]

theorem violatesSOC2_iff (app : AppRecord) :
    violatesSOC2 app = true ↔
      (app.compliance.contains Compliance.SOC2 = true ∧
        app.deployment = DeploymentEnv.SANDBOX) := by
  simp [violatesSOC2]

/-- C2: an application is classified non-compliant exactly when it violates
one of the three rules (PCI in sandbox or qa; GDPR with more than 10000 users
in uat; SOC2 in sandbox), and a reason string is present exactly when the
application is non-compliant (compliant applications get a null reason). -/
theorem c2_classification_rules (app : AppRecord) :
    ((classify app).isCompliant = false ↔
      ((app.compliance.contains Compliance.PCI = true ∧
          (app.deployment = DeploymentEnv.SANDBOX ∨ app.deployment = DeploymentEnv.QA))
        ∨ (app.compliance.contains Compliance.GDPR = true ∧ app.users > 10000 ∧
            app.deployment = DeploymentEnv.UAT)
        ∨ (app.compliance.contains Compliance.SOC2 = true ∧
            app.deployment = DeploymentEnv.SANDBOX)))
  ∧ ((classify app).reason.isSome = true ↔ (classify app).isCompliant = false) := by
  constructor
  · rw [classify_isCompliant]
    rw [show ∀ b : Bool, ((!b) = false ↔ b = true) from by decide]
    rw [Bool.or_eq_true, Bool.or_eq_true, violatesPCI_iff, violatesGDPR_iff, violatesSOC2_iff]
    tauto
  · rw [classify_reason_isSome]
    simp

/-- C7: sentinel queries (whose lowercased stripped form is "all", "list",
"everything" or empty) return the full catalog in insertion order (ids
1,2,3,4,5, not re-sorted); matching is case-insensitive and
whitespace-trimmed; an unmatched non-sentinel name returns the diagnostic
message, which lists every known application name. -/
theorem c7_lookup_contract :
    (∀ s : String, pyStrip (pyLower s) ∈ ["all", "list", "everything", ""] →
        get_cmdb_data s = CmdbResult.allApps cmdb_data)
  ∧ cmdb_data.map (fun app => app.id) = [1, 2, 3, 4, 5]
  ∧ (∀ s₁ s₂ : String, pyStrip (pyLower s₁) = pyStrip (pyLower s₂) →
      ∀ a : AppRecord,
        (get_cmdb_data s₁ = CmdbResult.oneApp a ↔ get_cmdb_data s₂ = CmdbResult.oneApp a))
  ∧ (∀ s : String, pyStrip (pyLower s) ∉ ["all", "list", "everything", ""] →
      (∀ app ∈ cmdb_data, pyLower app.name ≠ pyStrip (pyLower s)) →
        get_cmdb_data s = CmdbResult.notFound (notFoundMessage s) ∧
        ∀ app ∈ cmdb_data, occursB app.name (notFoundMessage s) = true) := by
  refine ⟨?_, by decide, ?_, ?_⟩
  · intro s hs
    rw [get_cmdb_data_eq, if_pos hs]
  · intro s₁ s₂ h a
    rw [get_cmdb_data_eq s₁, get_cmdb_data_eq s₂, h]
    by_cases hs : pyStrip (pyLower s₂) ∈ (["all", "list", "everything", ""] : List String)
    · rw [if_pos hs, if_pos hs]
    · rw [if_neg hs, if_neg hs]
      cases hfind : cmdb_data.find? (fun app => pyLower app.name == pyStrip (pyLower s₂)) with
      | none => simp [hfind]
      | some app => simp [hfind]
  · intro s hs hnone
    have hf : cmdb_data.find? (fun app => pyLower app.name == pyStrip (pyLower s)) = none := by
      rw [List.find?_eq_none]
      intro app hmem
      simpa using hnone app hmem
    refine ⟨?_, ?_⟩
    · rw [get_cmdb_data_eq, if_neg hs, hf]
    · intro app hmem
      show occursList app.name.data (notFoundMessage s).data = true
      rw [notFoundMessage, string_data_append]
      apply occursList_append_right
      fin_cases hmem <;> decide

theorem scanParts_eq_none_iff (ps : List TextPart) :
    scanParts ps = none ↔ ps.any partIsCandidate = false := by
  induction ps with
  | nil => simp [scanParts]
  | cons p rest ih =>
    cases hp : p.text with
    | none => simp [scanParts, hp, partIsCandidate, ih]
    | some t =>
      by_cases hc : pyStartsWith (pyStrip t) "[" = true
      · cases hl : jsonLoads t <;> simp [scanParts, hp, hc, partIsCandidate, hl]
      · simp [scanParts, hp, hc, partIsCandidate, ih]

theorem scanEvents_eq_none_iff (es : List Event) :
    scanEvents es = none ↔ es.any eventHasCandidate = false := by
  induction es with
  | nil => simp [scanEvents]
  | cons e rest ih =>
    cases hc : e.content with
    | none => simp [scanEvents, hc, eventHasCandidate, ih]
    | some c =>
      cases hp : c.parts with
      | none => simp [scanEvents, hc, hp, eventHasCandidate, ih]
      | some ps =>
        cases hs : scanParts ps with
        | none =>
          have hany := (scanParts_eq_none_iff ps).mp hs
          simp [scanEvents, hc, hp, hs, eventHasCandidate, hany, ih]
        | some out =>
          have hany : ps.any partIsCandidate = true := by
            by_contra hfalse
            rw [Bool.not_eq_true] at hfalse
            rw [(scanParts_eq_none_iff ps).mpr hfalse] at hs
            exact Option.noConfusion hs
          simp [scanEvents, hc, hp, hs, eventHasCandidate, hany]

theorem scanParts_outcome (ps : List TextPart) (out : ExtractOutcome)
    (h : scanParts ps = some out) :
    (∃ v, out = { result := some v, errorRaw := none }) ∨
      (∃ t, out = { result := none, errorRaw := some t } ∧ jsonLoads t = none) := by
  induction ps with
  | nil => simp [scanParts] at h
  | cons p rest ih =>
    cases hp : p.text with
    | none =>
      simp only [scanParts, hp] at h
      exact ih h
    | some t =>
      by_cases hc : pyStartsWith (pyStrip t) "[" = true
      · cases hl : jsonLoads t with
        | some v =>
          simp only [scanParts, hp, hc, if_true, hl, Option.some.injEq] at h
          exact Or.inl ⟨v, h.symm⟩
        | none =>
          simp only [scanParts, hp, hc, if_true, hl, Option.some.injEq] at h
          exact Or.inr ⟨t, h.symm, hl⟩
      · simp only [scanParts, hp, hc, if_false] at h
        exact ih h

theorem scanEvents_outcome (es : List Event) (out : ExtractOutcome)
    (h : scanEvents es = some out) :
    (∃ v, out = { result := some v, errorRaw := none }) ∨
      (∃ t, out = { result := none, errorRaw := some t } ∧ jsonLoads t = none) := by
  induction es with
  | nil => simp [scanEvents] at h
  | cons e rest ih =>
    cases hc : e.content with
    | none =>
      simp only [scanEvents, hc] at h
      exact ih h
    | some c =>
      cases hp : c.parts with
      | none =>
        simp only [scanEvents, hc, hp] at h
        exact ih h
      | some ps =>
        cases hs : scanParts ps with
        | none =>
          simp only [scanEvents, hc, hp, hs] at h
          exact ih h
        | some out2 =>
          simp only [scanEvents, hc, hp, hs, Option.some.injEq] at h
          rw [← h]
          exact scanParts_outcome ps out2 hs

/-- C9: the extractor produces a parsed value only when some event carries a
text part whose stripped text begins with a bracket; without such a part it
returns nothing (a response carrying a single JSON object included), and a
parse failure on the candidate text yields no result while echoing the text. -/
theorem c9_extract_only_arrays (events : List Event) :
    ((extract_json_from_events events).result.isSome = true →
        events.any eventHasCandidate = true)
  ∧ (events.any eventHasCandidate = false →
        extract_json_from_events events = { result := none, errorRaw := none })
  ∧ (∀ t : String, (extract_json_from_events events).errorRaw = some t →
      (extract_json_from_events events).result = none ∧ jsonLoads t = none) := by
  have hrev : events.reverse.any eventHasCandidate = events.any eventHasCandidate := by
    simp
  refine ⟨?_, ?_, ?_⟩
  · intro hsome
    cases hs : scanEvents events.reverse with
    | none =>
      rw [extract_json_from_events, hs] at hsome
      simp at hsome
    | some out =>
      by_contra hfalse
      rw [Bool.not_eq_true] at hfalse
      rw [(scanEvents_eq_none_iff events.reverse).mpr (hrev.trans hfalse)] at hs
      exact Option.noConfusion hs
  · intro hnone
    rw [extract_json_from_events, (scanEvents_eq_none_iff events.reverse).mpr (hrev.trans hnone)]
  · intro t hraw
    cases hs : scanEvents events.reverse with
    | none =>
      rw [extract_json_from_events, hs] at hraw
      exact Option.noConfusion hraw
    | some out =>
      rw [extract_json_from_events, hs] at hraw ⊢
      rcases scanEvents_outcome events.reverse out hs with ⟨v, rfl⟩ | ⟨t2, rfl, hload⟩
      · exact Option.noConfusion hraw
      · cases Option.some.inj hraw
        exact ⟨rfl, hload⟩

/-- Witness for C9 at concrete event lists: a raw array response, a prose-only
response, and an unparseable candidate. -/
theorem c9_extract_only_arrays_witness :
    ([singleTextEvent "[1]"].any eventHasCandidate = true)
  ∧ (extract_json_from_events [singleTextEvent "just prose"] =
      { result := none, errorRaw := none })
  ∧ ((extract_json_from_events [singleTextEvent "[oops"]).result = none ∧
      jsonLoads "[oops" = none) :=
  ⟨(c9_extract_only_arrays [singleTextEvent "[1]"]).1 rfl,
   (c9_extract_only_arrays [singleTextEvent "just prose"]).2.1 rfl,
   (c9_extract_only_arrays [singleTextEvent "[oops"]).2.2 "[oops" rfl⟩

/-- C5 counterexample: for the JSON value `[1]`, the extractor parses the sole
raw content but returns nothing for the fenced-block and prose-prefixed
presentations of the same value, so the three cases do not agree. -/
theorem c5_extractor_equivalence_counterexample :
    (extract_json_from_events [singleTextEvent "[1]"]).result = some (Json.arr [Json.num 1])
  ∧ (extract_json_from_events [singleTextEvent "```json\n[1]\n```"]).result = none
  ∧ (extract_json_from_events [singleTextEvent "Here is the JSON:\n[1]"]).result = none
  ∧ (extract_json_from_events [singleTextEvent "```json\n[1]\n```"]).result ≠
      (extract_json_from_events [singleTextEvent "[1]"]).result := by
  refine ⟨rfl, rfl, rfl, ?_⟩
  intro hcontra
  rw [show (extract_json_from_events [singleTextEvent "```json\n[1]\n```"]).result = none from
    rfl] at hcontra
  rw [show (extract_json_from_events [singleTextEvent "[1]"]).result =
    some (Json.arr [Json.num 1]) from rfl] at hcontra
  exact Option.noConfusion hcontra

/-- C5 (amended): the extractor recovers a parsed value only from a response
whose stripped text itself begins with a bracket and which parses as JSON as a
whole; any presentation whose stripped text does not begin with a bracket
(fenced code block, explanatory prose prefix) yields no value. -/
theorem c5_extractor_raw_only :
    (∀ (t : String) (v : Json), jsonLoads t = some v → pyStartsWith (pyStrip t) "[" = true →
        (extract_json_from_events [singleTextEvent t]).result = some v)
  ∧ (∀ t : String, pyStartsWith (pyStrip t) "[" = false →
        (extract_json_from_events [singleTextEvent t]).result = none) := by
  constructor
  · intro t v hload hstart
    simp [extract_json_from_events, scanEvents, scanParts, singleTextEvent, hstart, hload]
  · intro t hstart
    simp [extract_json_from_events, scanEvents, scanParts, singleTextEvent, hstart]

/-- Witness for C5 (amended) at a raw array text and a prose-prefixed text. -/
theorem c5_extractor_raw_only_witness :
    (extract_json_from_events [singleTextEvent "[1]"]).result = some (Json.arr [Json.num 1])
  ∧ (extract_json_from_events [singleTextEvent "prose first\n[1]"]).result = none :=
  ⟨c5_extractor_raw_only.1 "[1]" (Json.arr [Json.num 1]) rfl rfl,
   c5_extractor_raw_only.2 "prose first\n[1]" rfl⟩

/-- C3: one pipeline run's stage sequence is exactly lookup, compliance-
validate, risk-assess, recommend, report, evaluate: transitions are strictly
forward by one position, no stage is re-entered (the trace has no
duplicates), and no stage is skipped (every stage occurs). -/
theorem c3_stage_order_total :
    pipelineTrace = [Stage.lookup, Stage.validate, Stage.riskAssess, Stage.recommend,
      Stage.report, Stage.evaluate]
  ∧ List.Chain' (fun a b => a.index + 1 = b.index) pipelineTrace
  ∧ pipelineTrace.Nodup
  ∧ ∀ s : Stage, s ∈ pipelineTrace := by
  refine ⟨by decide, ?_, by decide, fun s => by cases s <;> decide⟩
  rw [show pipelineTrace = [Stage.lookup, Stage.validate, Stage.riskAssess, Stage.recommend,
    Stage.report, Stage.evaluate] from rfl]
  simp [List.chain'_cons, Stage.index]

/-- C4: a call whose every attempt fails with a configured retryable status
makes exactly 5 attempts (the configured bound) with strictly increasing
backoff delays following delay = initial_delay * exp_base ^ (attempt - 1),
and ends in `serviceUnavailable` carrying the last status; a non-retryable
status fails immediately as `fatal` after one attempt with no delays. -/
theorem c4_retry_bounded_backoff :
    (∀ (s : Nat) (respond : Nat → CallResult),
        s ∈ retry_config.http_status_codes → (∀ i, respond i = CallResult.err s) →
        (runWithRetries retry_config respond).attemptsMade = 5 ∧
        (runWithRetries retry_config respond).delays = [1, 7, 49, 343] ∧
        (runWithRetries retry_config respond).delays =
          (List.range 4).map
            (fun k => retry_config.initial_delay * retry_config.exp_base ^ k) ∧
        List.Chain' (fun a b => a < b) (runWithRetries retry_config respond).delays ∧
        (runWithRetries retry_config respond).result = AdapterResult.serviceUnavailable s)
  ∧ (∀ (s : Nat) (respond : Nat → CallResult),
        s ∉ retry_config.http_status_codes → respond 1 = CallResult.err s →
        runWithRetries retry_config respond =
          { attemptsMade := 1, delays := [], result := AdapterResult.fatal s }) := by
  constructor
  · intro s respond hs herr
    have h5 : runWithRetries retry_config respond =
        { attemptsMade := 5, delays := [1, 7, 49, 343],
          result := AdapterResult.serviceUnavailable s } := by
      have hs4 : s = 429 ∨ s = 500 ∨ s = 503 ∨ s = 504 := by
        simpa [retry_config] using hs
      show retryLoop retry_config respond 1 5 = _
      rcases hs4 with rfl | rfl | rfl | rfl <;>
        simp [retryLoop, herr 1, herr 2, herr 3, herr 4, herr 5, retry_config]
    rw [h5]
    refine ⟨rfl, rfl, rfl, ?_, rfl⟩
    norm_num [List.chain'_cons]
  · intro s respond hs herr
    have hs4 : ¬(s = 429 ∨ s = 500 ∨ s = 503 ∨ s = 504) := by
      simpa [retry_config] using hs
    show retryLoop retry_config respond 1 5 = _
    simp [retryLoop, herr, hs4, retry_config]

/-- Witness for C4: an always-429 call and an immediate 404 failure. -/
theorem c4_retry_bounded_backoff_witness :
    ((runWithRetries retry_config (fun _ => CallResult.err 429)).attemptsMade = 5 ∧
      (runWithRetries retry_config (fun _ => CallResult.err 429)).delays = [1, 7, 49, 343] ∧
      (runWithRetries retry_config (fun _ => CallResult.err 429)).delays =
        (List.range 4).map
          (fun k => retry_config.initial_delay * retry_config.exp_base ^ k) ∧
      List.Chain' (fun a b => a < b)
        (runWithRetries retry_config (fun _ => CallResult.err 429)).delays ∧
      (runWithRetries retry_config (fun _ => CallResult.err 429)).result =
        AdapterResult.serviceUnavailable 429)
  ∧ runWithRetries retry_config (fun _ => CallResult.err 404) =
      { attemptsMade := 1, delays := [], result := AdapterResult.fatal 404 } :=
  ⟨c4_retry_bounded_backoff.1 429 (fun _ => CallResult.err 429) (by decide) (fun _ => rfl),
   c4_retry_bounded_backoff.2 404 (fun _ => CallResult.err 404) (by decide) rfl⟩

/-- C6 counterexample: for events whose candidate text `[oops` fails to
parse, the run does not abort at a stage — all six stages have executed
(including `evaluate`, after the stage producing the bad text) — and the
failure output carries the raw text but names no failing stage. -/
theorem c6_abort_at_stage_counterexample :
    (extract_json_from_events [singleTextEvent "[oops"]).errorRaw = some "[oops"
  ∧ (mainRun [singleTextEvent "[oops"]).printedResult = none
  ∧ (mainRun [singleTextEvent "[oops"]).printedRawText = some "[oops"
  ∧ (mainRun [singleTextEvent "[oops"]).stagesExecuted =
      [Stage.lookup, Stage.validate, Stage.riskAssess, Stage.recommend,
        Stage.report, Stage.evaluate]
  ∧ Stage.evaluate ∈ (mainRun [singleTextEvent "[oops"]).stagesExecuted
  ∧ (mainRun [singleTextEvent "[oops"]).reportedFailedStage = none := by
  exact ⟨rfl, rfl, rfl, rfl, by decide, rfl⟩

/-- C6 (amended): a response that fails parsing aborts nothing mid-run —
extraction happens only after `run_debug` has executed every stage, so the
full stage trace has run; the diagnostics preserve the original raw response
text but report no failing stage name. -/
theorem c6_failure_after_full_run (events : List Event) (t : String)
    (h : (extract_json_from_events events).errorRaw = some t) :
    (mainRun events).printedRawText = some t
  ∧ (mainRun events).printedResult = none
  ∧ (mainRun events).stagesExecuted = pipelineTrace
  ∧ (mainRun events).reportedFailedStage = none := by
  refine ⟨h, ?_, rfl, rfl⟩
  show (extract_json_from_events events).result = none
  cases hs : scanEvents events.reverse with
  | none =>
    rw [extract_json_from_events, hs] at h
    exact Option.noConfusion h
  | some out =>
    rw [extract_json_from_events, hs] at h ⊢
    rcases scanEvents_outcome events.reverse out hs with ⟨v, rfl⟩ | ⟨t2, rfl, hload⟩
    · exact Option.noConfusion h
    · rfl

/-- Witness for C6 (amended) at a concrete unparseable response. -/
theorem c6_failure_after_full_run_witness :
    (mainRun [singleTextEvent "[nope"]).printedRawText = some "[nope"
  ∧ (mainRun [singleTextEvent "[nope"]).printedResult = none
  ∧ (mainRun [singleTextEvent "[nope"]).stagesExecuted = pipelineTrace
  ∧ (mainRun [singleTextEvent "[nope"]).reportedFailedStage = none :=
  c6_failure_after_full_run [singleTextEvent "[nope"] "[nope" rfl

/-- C8 (code evaluated at the failing inputs): the stage instructions for
risk assessment, recommendation, reporting and evaluation each still contain
their bracketed template placeholder text verbatim, so that text — not a
substituted artifact — is what dispatch hands to the external service. -/
theorem c8_placeholders_dispatched_unsubstituted :
    occursB "$\x7bJSON.stringify(nonCompliantApps, null, 2)\x7d"
      riskassessment_agent.instruction = true
  ∧ occursB "$\x7bJSON.stringify(risks, null, 2)\x7d"
      recommendation_agent.instruction = true
  ∧ occursB "$\x7bJSON.stringify(complianceResults.filter(r => !r.isCompliant))\x7d"
      reporting_agent.instruction = true
  ∧ occursB "$\x7bJSON.stringify(risks)\x7d" reporting_agent.instruction = true
  ∧ occursB "$\x7bJSON.stringify(recommendations)\x7d" reporting_agent.instruction = true
  ∧ occursB "$\x7bJSON.stringify(report)\x7d" evaluation_agent.instruction = true
  ∧ occursB "$\x7bJSON.stringify(risks)\x7d" evaluation_agent.instruction = true := by
  decide

/-- C10: executing the CrewAI variant's main block always raises an
unbound-name error for `Process` at the `Crew(...)` construction — `Process`
is neither imported nor defined in the module — and this happens strictly
before the `crew.kickoff()` statement that runs the tasks. -/
theorem c10_process_name_unbound :
    runMainBlock crewai_module_names crewai_main_stmts = some ("crew", "Process")
  ∧ crewai_module_names.contains "Process" = false
  ∧ (crewai_main_stmts.map (fun st => st.target)).contains "Process" = false
  ∧ (crewai_main_stmts.map (fun st => st.target)).indexOf "crew" <
      (crewai_main_stmts.map (fun st => st.target)).indexOf "result" := by
  decide

/-- Witness for C7: a sentinel query with whitespace and mixed case, and an
unmatched name receiving the diagnostic that lists every known name. -/
theorem c7_lookup_contract_witness :
    get_cmdb_data "  ALL " = CmdbResult.allApps cmdb_data
  ∧ (get_cmdb_data "unknown-app" = CmdbResult.notFound (notFoundMessage "unknown-app") ∧
      ∀ app ∈ cmdb_data, occursB app.name (notFoundMessage "unknown-app") = true) :=
  ⟨c7_lookup_contract.1 "  ALL " (by decide),
   c7_lookup_contract.2.2.2 "unknown-app" (by decide) (by decide)⟩
